import Mathlib

/-!
Verification of the spreadsheet-to-record extraction logic of the
Goravel-Papa repository.

The repository contains two near-duplicate extraction implementations:

* `main.go` — `openLocalCustFile` / `openLocalProductFile`, which read rows
  through the bounds-safe helper `getRowValue` and fall back over a list of
  candidate sheet names;
* `app/http/controllers/home_controller.go` — `openURLCust` / `openURLItem`,
  which index rows directly (`row[0]` … `row[8]`), panic on fetch failure,
  and register the deferred `Close` only after the sheet-list check.

Both are embedded below.  Spreadsheet documents are modelled as association
lists from sheet names to row matrices; a row is a `List String`.  Go's
`(value, error)` returns are modelled with `Except`; a Go runtime panic
(index out of range, or an explicit `panic(err)`) is modelled by the
`GoResult.panicked` constructor, and in row-building helpers by `Option`
(`none` = panic).
-/

/-- Customer record of `main.go` (`ExlData`, the 3-period-average schema). -/
structure ExlData where
  Branch : String
  CustId : String
  CustName : String
  Alamat : String
  Kota : String
  SalesName : String
  Channel : String
  Avg2023 : String
  Avg2024 : String
  Avg2025 : String
  Max : String
deriving Repr, DecidableEq

/-- Product record (`ExlProduct`, identical in both files). -/
structure ExlProduct where
  Code : String
  NameProduct : String
  HNA : String
  PPN : String
deriving Repr, DecidableEq

/-- Customer record of `home_controller.go` (the 2-period schema with
`Q4Avg2023` instead of `Avg2024`/`Avg2025`/`Max`). -/
structure ExlDataC where
  Branch : String
  CustId : String
  CustName : String
  Alamat : String
  Kota : String
  SalesName : String
  Channel : String
  Avg2023 : String
  Q4Avg2023 : String
deriving Repr, DecidableEq

/-- `PageData` of `main.go`: the customer record set. -/
structure PageData where
  Customers : List ExlData

/-- `handleNullValue` (identical in `main.go` and `home_controller.go`):
empty string becomes the single-space sentinel, everything else passes
through verbatim. -/
def handleNullValue (value : String) : String :=
  if value = "" then " " else value

/-- `getRowValue` (`main.go`): bounds-checked cell access; an index past the
end of the row yields the single-space sentinel. -/
def getRowValue (row : List String) (index : Nat) : String :=
  if h : index < row.length then handleNullValue (row.get ⟨index, h⟩)
  else " "

/-- The loop body of `PageData.FindByID`: linear scan, return the first
record whose `CustId` matches, `none` (Go `nil`) otherwise. -/
def findByIdLoop : List ExlData → String → Option ExlData
  | [], _ => none
  | customer :: rest, id =>
    if customer.CustId = id then some customer else findByIdLoop rest id

/-- `PageData.FindByID` (`main.go`). -/
def PageData.FindByID (data : PageData) (id : String) : Option ExlData :=
  findByIdLoop data.Customers id

/-- The record built from one customer row in `openLocalCustFile`
(`main.go`): columns 0–10 through `getRowValue`. -/
def custRowData (row : List String) : ExlData :=
  { Branch := getRowValue row 0
    CustId := getRowValue row 1
    CustName := getRowValue row 2
    Alamat := getRowValue row 3
    Kota := getRowValue row 4
    SalesName := getRowValue row 5
    Channel := getRowValue row 6
    Avg2023 := getRowValue row 7
    Avg2024 := getRowValue row 8
    Avg2025 := getRowValue row 9
    Max := getRowValue row 10 }

/-- The row loop of `openLocalCustFile`: the `isFirstRow` flag skips exactly
the first row, every later row contributes one record in order. -/
def custRowsLoop : Bool → List (List String) → List ExlData
  | _, [] => []
  | true, _ :: rest => custRowsLoop false rest
  | false, row :: rest => custRowData row :: custRowsLoop false rest

/-- The extraction of `openLocalCustFile` from the matched sheet's rows. -/
def openLocalCustRows (rows : List (List String)) : List ExlData :=
  custRowsLoop true rows

/-- The record built from one product row in `openLocalProductFile`
(`main.go`): columns 0–2 through `getRowValue`; the trailing PPN column is
read through `getRowValue` only when the row has more than 3 cells and
defaults to the empty string otherwise. -/
def productRowData (row : List String) : ExlProduct :=
  { Code := getRowValue row 0
    NameProduct := getRowValue row 1
    HNA := getRowValue row 2
    PPN := if 3 < row.length then getRowValue row 3 else "" }

/-- The row loop of `openLocalProductFile`: row indices 0–2 are skipped
(`if index < 3 { continue }`), every later row contributes one record. -/
def productRowsLoop (index : Nat) : List (List String) → List ExlProduct
  | [] => []
  | row :: rest =>
    if index < 3 then productRowsLoop (index + 1) rest
    else productRowData row :: productRowsLoop (index + 1) rest

/-- The extraction of `openLocalProductFile` from the matched sheet's rows. -/
def openLocalProductRows (rows : List (List String)) : List ExlProduct :=
  productRowsLoop 0 rows

/-- A spreadsheet document: an association list of sheet names to row
matrices (the sheet/row model exposed by the excelize reader). -/
abbrev Workbook := List (String × List (List String))

/-- Whether a sheet of the given name exists in the document. -/
def sheetExists (doc : Workbook) (name : String) : Bool :=
  (doc.find? (fun s => s.1 = name)).isSome

/-- `GetRows` of the excelize reader: the rows of the named sheet, or an
error when no sheet of that name exists. -/
def GetRows (doc : Workbook) (name : String) : Except String (List (List String)) :=
  match doc.find? (fun s => s.1 = name) with
  | some s => Except.ok s.2
  | none => Except.error ("sheet " ++ name ++ " does not exist")

/-- `GetSheetList` of the excelize reader. -/
def GetSheetList (doc : Workbook) : List String :=
  doc.map (fun s => s.1)

/-- The fallback loop of `openLocalCustFile` / `openLocalProductFile`
(`main.go`): try each alternate sheet name in order, stop at the first
success; carries the most recent `GetRows` error.  Returns the list of
names attempted by the loop together with the outcome. -/
def tryAlternates (doc : Workbook) (lastErr : String) :
    List String → List String × Except String (List (List String))
  | [] => ([], Except.error ("error getting rows from data sheet: " ++ lastErr))
  | name :: rest =>
    match GetRows doc name with
    | Except.ok rows => ([name], Except.ok rows)
    | Except.error e =>
      let r := tryAlternates doc e rest
      (name :: r.1, r.2)

/-- Sheet selection of `main.go`: try the primary sheet name; on failure run
the alternate-name fallback loop.  Returns the full list of attempted names
together with the outcome. -/
def openSheetWithFallback (doc : Workbook) (primary : String) (alternates : List String) :
    List String × Except String (List (List String)) :=
  match GetRows doc primary with
  | Except.ok rows => ([primary], Except.ok rows)
  | Except.error e =>
    let r := tryAlternates doc e alternates
    (primary :: r.1, r.2)

/-- Outcome of a Go function returning `(value, error)`, with a third case
for a runtime panic (`panic(err)` or index out of range). -/
inductive GoResult (α : Type) where
  | ok : α → GoResult α
  | err : String → GoResult α
  | panicked : String → GoResult α
deriving Repr, DecidableEq

/-- The record built from one customer row in `openURLCust`
(`home_controller.go`): direct indexing `row[0]` … `row[8]`, so a row with
fewer than 9 cells panics (`none`). -/
def custRowDataC (row : List String) : Option ExlDataC := do
  let a ← row.get? 0
  let b ← row.get? 1
  let c ← row.get? 2
  let d ← row.get? 3
  let e ← row.get? 4
  let f ← row.get? 5
  let g ← row.get? 6
  let h ← row.get? 7
  let i ← row.get? 8
  pure
    { Branch := handleNullValue a
      CustId := handleNullValue b
      CustName := handleNullValue c
      Alamat := handleNullValue d
      Kota := handleNullValue e
      SalesName := handleNullValue f
      Channel := handleNullValue g
      Avg2023 := handleNullValue h
      Q4Avg2023 := handleNullValue i }

/-- The row loop of `openURLCust`: skip the first row, then build a record
from each remaining row; a panic in any row build aborts the whole loop. -/
def custRowsLoopC : Bool → List (List String) → Option (List ExlDataC)
  | _, [] => some []
  | true, _ :: rest => custRowsLoopC false rest
  | false, row :: rest => do
    let r ← custRowDataC row
    let recs ← custRowsLoopC false rest
    pure (r :: recs)

/-- The record built from one product row in `openURLItem`
(`home_controller.go`): direct indexing `row[0]` … `row[3]`, so a row with
fewer than 4 cells panics (`none`). -/
def productRowDataC (row : List String) : Option ExlProduct := do
  let a ← row.get? 0
  let b ← row.get? 1
  let c ← row.get? 2
  let d ← row.get? 3
  pure
    { Code := handleNullValue a
      NameProduct := handleNullValue b
      HNA := handleNullValue c
      PPN := handleNullValue d }

/-- The row loop of `openURLItem`: row indices 0–6 are skipped
(`if index < 7 { continue }`); a panic in any row build aborts the loop. -/
def productRowsLoopC (index : Nat) : List (List String) → Option (List ExlProduct)
  | [] => some []
  | row :: rest =>
    if index < 7 then productRowsLoopC (index + 1) rest
    else do
      let r ← productRowDataC row
      let recs ← productRowsLoopC (index + 1) rest
      pure (r :: recs)

/-- `openURLCust` (`home_controller.go`), parameterised over the fetch
outcome and the excelize reader.  The second component records whether the
opened document handle has been closed when the call terminates (`true`
also on paths where no handle was ever opened).  Faithful to the source:

* a fetch error is `panic(err)`;
* an `OpenReader` error is returned as an error value (no handle to close);
* an empty sheet list returns early with `return nil, err` — `err` is `nil`
  at that point, so the caller sees a nil record set with a nil error, and
  the `defer exlz.Close()` has not yet been registered, so the handle stays
  open;
* after the deferred close is registered every exit (error, success, or a
  row-indexing panic) closes the handle. -/
def openURLCustModel {α : Type} (fetch : Except String α)
    (openReader : α → Except String Workbook) : GoResult (List ExlDataC) × Bool :=
  match fetch with
  | Except.error e => (GoResult.panicked e, true)
  | Except.ok data =>
    match openReader data with
    | Except.error e => (GoResult.err e, true)
    | Except.ok doc =>
      if (GetSheetList doc).length = 0 then (GoResult.ok [], false)
      else
        match GetRows doc "Sheet1" with
        | Except.error e => (GoResult.err e, true)
        | Except.ok rows =>
          match custRowsLoopC true rows with
          | none => (GoResult.panicked "runtime error: index out of range", true)
          | some recs => (GoResult.ok recs, true)

/-- `openURLItem` (`home_controller.go`), modelled exactly like
`openURLCustModel` but reading sheet `"DaftarHarga"` and building product
records with a 7-row header skip. -/
def openURLItemModel {α : Type} (fetch : Except String α)
    (openReader : α → Except String Workbook) : GoResult (List ExlProduct) × Bool :=
  match fetch with
  | Except.error e => (GoResult.panicked e, true)
  | Except.ok data =>
    match openReader data with
    | Except.error e => (GoResult.err e, true)
    | Except.ok doc =>
      if (GetSheetList doc).length = 0 then (GoResult.ok [], false)
      else
        match GetRows doc "DaftarHarga" with
        | Except.error e => (GoResult.err e, true)
        | Except.ok rows =>
          match productRowsLoopC 0 rows with
          | none => (GoResult.panicked "runtime error: index out of range", true)
          | some recs => (GoResult.ok recs, true)

/-- `openLocalCustFile` (`main.go`), parameterised over path resolution and
the excelize file opener.  `defer exlz.Close()` is registered immediately
after a successful open, so the closed flag is `true` on every path. -/
def openLocalCustFileModel (absRes : Except String String)
    (openFile : String → Except String Workbook) : GoResult (List ExlData) × Bool :=
  match absRes with
  | Except.error e => (GoResult.err ("error getting absolute file path: " ++ e), true)
  | Except.ok path =>
    match openFile path with
    | Except.error e => (GoResult.err ("error opening excel file: " ++ e), true)
    | Except.ok doc =>
      match (openSheetWithFallback doc "Data Base" ["Database", "Sheet1", "Data"]).2 with
      | Except.error e => (GoResult.err e, true)
      | Except.ok rows => (GoResult.ok (openLocalCustRows rows), true)

/-- `openLocalProductFile` (`main.go`), same shape with the product sheet
candidates. -/
def openLocalProductFileModel (absRes : Except String String)
    (openFile : String → Except String Workbook) : GoResult (List ExlProduct) × Bool :=
  match absRes with
  | Except.error e => (GoResult.err ("error getting absolute file path: " ++ e), true)
  | Except.ok path =>
    match openFile path with
    | Except.error e => (GoResult.err ("error opening excel file: " ++ e), true)
    | Except.ok doc =>
      match (openSheetWithFallback doc "APL" ["DaftarHarga", "Product", "Products", "Sheet2"]).2 with
      | Except.error e => (GoResult.err e, true)
      | Except.ok rows => (GoResult.ok (openLocalProductRows rows), true)

/-! ## Helper lemmas -/

/-- `handleNullValue` never returns the empty string. -/
theorem handleNullValue_ne_empty (v : String) : handleNullValue v ≠ "" := by
  unfold handleNullValue
  by_cases h : v = "" <;> simp [h]

/-- `getRowValue` never returns the empty string. -/
theorem getRowValue_ne_empty (row : List String) (index : Nat) :
    getRowValue row index ≠ "" := by
  unfold getRowValue
  by_cases h : index < row.length
  · rw [dif_pos h]; exact handleNullValue_ne_empty _
  · rw [dif_neg h]; simp

/-- Characterisation of `getRowValue` via `getD`: an absent cell reads as
`""` under `getD`, so both the empty-cell and the missing-cell case land in
the sentinel branch. -/
theorem getRowValue_eq_getD (row : List String) (index : Nat) :
    getRowValue row index = if row.getD index "" = "" then " " else row.getD index "" := by
  unfold getRowValue handleNullValue
  by_cases h : index < row.length
  · rw [dif_pos h]
    have hg : row.getD index "" = row.get ⟨index, h⟩ := by
      show (row.get? index).getD "" = _
      rw [List.get?_eq_get h]
      rfl
    rw [hg]
  · rw [dif_neg h]
    have hg : row.getD index "" = "" := by
      show (row.get? index).getD "" = _
      rw [List.get?_eq_none.mpr (Nat.le_of_not_lt h)]
      rfl
    rw [hg]
    simp

/-- The customer row loop past the header is exactly a map. -/
theorem custRowsLoop_false_eq_map (l : List (List String)) :
    custRowsLoop false l = l.map custRowData := by
  induction l with
  | nil => rfl
  | cons row rest ih => simp [custRowsLoop, ih]

/-- `openLocalCustFile`'s loop drops the first row and maps the rest. -/
theorem openLocalCustRows_eq (rows : List (List String)) :
    openLocalCustRows rows = (rows.drop 1).map custRowData := by
  cases rows with
  | nil => rfl
  | cons row rest =>
    show custRowsLoop false rest = _
    simpa using custRowsLoop_false_eq_map rest

/-- The product row loop started at counter `i` drops the first `3 - i`
rows and maps the rest. -/
theorem productRowsLoop_eq (l : List (List String)) :
    ∀ i, productRowsLoop i l = (l.drop (3 - i)).map productRowData := by
  induction l with
  | nil => intro i; simp [productRowsLoop]
  | cons row rest ih =>
    intro i
    by_cases h : i < 3
    · rw [productRowsLoop, if_pos h, ih]
      have h3 : 3 - i = (3 - (i + 1)) + 1 := by omega
      rw [h3]
      rfl
    · rw [productRowsLoop, if_neg h, ih]
      have h3 : 3 - i = 0 := by omega
      have h4 : 3 - (i + 1) = 0 := by omega
      rw [h3, h4]
      rfl

/-- `openLocalProductFile`'s loop drops the first three rows and maps the
rest. -/
theorem openLocalProductRows_eq (rows : List (List String)) :
    openLocalProductRows rows = (rows.drop 3).map productRowData := by
  simpa using productRowsLoop_eq rows 0

/-! ## Claims -/

/-- C10: `handleNullValue` is idempotent, and a genuinely single-space cell
is indistinguishable from an empty cell after extraction. -/
theorem handleNullValue_idempotent (value : String) :
    handleNullValue (handleNullValue value) = handleNullValue value ∧
    handleNullValue " " = handleNullValue "" := by
  constructor
  · by_cases h : value = ""
    · subst h; decide
    · simp [handleNullValue, h]
  · decide

/-- C1: for every row and mapped column index, an empty or absent source
cell produces the single-space sentinel and a non-empty cell passes through
verbatim; every non-PPN field of the customer and product record builders is
read through this rule (`getRowValue`). -/
theorem getRowValue_sentinel_rule (row : List String) (index : Nat) :
    getRowValue row index = (if row.getD index "" = "" then " " else row.getD index "") ∧
    (custRowData row).Branch = getRowValue row 0 ∧
    (custRowData row).CustId = getRowValue row 1 ∧
    (custRowData row).CustName = getRowValue row 2 ∧
    (custRowData row).Alamat = getRowValue row 3 ∧
    (custRowData row).Kota = getRowValue row 4 ∧
    (custRowData row).SalesName = getRowValue row 5 ∧
    (custRowData row).Channel = getRowValue row 6 ∧
    (custRowData row).Avg2023 = getRowValue row 7 ∧
    (custRowData row).Avg2024 = getRowValue row 8 ∧
    (custRowData row).Avg2025 = getRowValue row 9 ∧
    (custRowData row).Max = getRowValue row 10 ∧
    (productRowData row).Code = getRowValue row 0 ∧
    (productRowData row).NameProduct = getRowValue row 1 ∧
    (productRowData row).HNA = getRowValue row 2 :=
  ⟨getRowValue_eq_getD row index, rfl, rfl, rfl, rfl, rfl, rfl, rfl, rfl, rfl, rfl, rfl,
   rfl, rfl, rfl⟩

/-- C4: the record at output position `i` is built from the sheet row at
position `N + i` — `N = 1` for the customer extraction (the `isFirstRow`
skip) and `N = 3` for the product extraction; every row past the header
contributes exactly one record in row order and blank rows are not
skipped. -/
theorem header_skip_row_order (rows : List (List String)) :
    openLocalCustRows rows = (rows.drop 1).map custRowData ∧
    openLocalProductRows rows = (rows.drop 3).map productRowData :=
  ⟨openLocalCustRows_eq rows, openLocalProductRows_eq rows⟩

/-- C9: `FindByID` returns the record at the smallest position whose
`CustId` matches (first match of the linear scan), and `none` when no
record matches. -/
theorem FindByID_first_match (data : PageData) (id : String) :
    (∀ (i : Nat) (hi : i < data.Customers.length),
       (data.Customers.get ⟨i, hi⟩).CustId = id →
       (∀ (j : Nat) (hj : j < data.Customers.length), j < i →
          (data.Customers.get ⟨j, hj⟩).CustId ≠ id) →
       data.FindByID id = some (data.Customers.get ⟨i, hi⟩)) ∧
    ((∀ c ∈ data.Customers, c.CustId ≠ id) → data.FindByID id = none) := by
  obtain ⟨l⟩ := data
  show (∀ (i : Nat) (hi : i < l.length), _) ∧ _
  induction l with
  | nil =>
    constructor
    · intro i hi
      exact absurd hi (by simp)
    · intro _
      rfl
  | cons c rest ih =>
    constructor
    · intro i hi hmatch hbefore
      cases i with
      | zero =>
        show findByIdLoop (c :: rest) id = _
        have hc : c.CustId = id := hmatch
        rw [findByIdLoop, if_pos hc]
        rfl
      | succ i' =>
        have hc : c.CustId ≠ id := by
          have := hbefore 0 (by simp) (Nat.succ_pos i')
          simpa using this
        show findByIdLoop (c :: rest) id = _
        rw [findByIdLoop, if_neg hc]
        have hi' : i' < rest.length := by simpa using hi
        have hm' : (rest.get ⟨i', hi'⟩).CustId = id := hmatch
        have hb' : ∀ (j : Nat) (hj : j < rest.length), j < i' →
            (rest.get ⟨j, hj⟩).CustId ≠ id := by
          intro j hj hji
          have := hbefore (j + 1) (by simpa using hj) (Nat.succ_lt_succ hji)
          simpa using this
        exact ih.1 i' hi' hm' hb'
    · intro hall
      show findByIdLoop (c :: rest) id = none
      rw [findByIdLoop, if_neg (hall c (by simp))]
      exact ih.2 (fun x hx => hall x (List.mem_cons_of_mem _ hx))

/-- C9 witness: on a set with two records sharing id `"C001"`, `FindByID`
returns the first in row order. -/
theorem FindByID_first_match_witness :
    (PageData.mk
      [{ Branch := "JOG", CustId := "C001", CustName := "Acme", Alamat := "Jl. X",
         Kota := "Jogja", SalesName := "Budi", Channel := "GT", Avg2023 := "10",
         Avg2024 := "12", Avg2025 := "13", Max := "15" },
       { Branch := "PWK", CustId := "C001", CustName := "Beta", Alamat := "Jl. Y",
         Kota := "Pwk", SalesName := "Sari", Channel := "MT", Avg2023 := "20",
         Avg2024 := "22", Avg2025 := "23", Max := "25" }]).FindByID "C001"
      = some { Branch := "JOG", CustId := "C001", CustName := "Acme", Alamat := "Jl. X",
               Kota := "Jogja", SalesName := "Budi", Channel := "GT", Avg2023 := "10",
               Avg2024 := "12", Avg2025 := "13", Max := "15" } := by
  have h := (FindByID_first_match (PageData.mk
      [{ Branch := "JOG", CustId := "C001", CustName := "Acme", Alamat := "Jl. X",
         Kota := "Jogja", SalesName := "Budi", Channel := "GT", Avg2023 := "10",
         Avg2024 := "12", Avg2025 := "13", Max := "15" },
       { Branch := "PWK", CustId := "C001", CustName := "Beta", Alamat := "Jl. Y",
         Kota := "Pwk", SalesName := "Sari", Channel := "MT", Avg2023 := "20",
         Avg2024 := "22", Avg2025 := "23", Max := "25" }]) "C001").1 0 (by decide)
    (by decide) (fun j hj hj0 => absurd hj0 (Nat.not_lt_zero j))
  exact h

/-- C7: every field of every successfully extracted customer record is
non-empty — empty or missing cells become the single-space sentinel, never
the empty string.  Stated for the `main.go` extraction (membership in the
extracted set) and for the controller's row builder (whenever it produces a
record at all). -/
theorem extracted_fields_nonempty :
    (∀ (rows : List (List String)) (c : ExlData), c ∈ openLocalCustRows rows →
       c.Branch ≠ "" ∧ c.CustId ≠ "" ∧ c.CustName ≠ "" ∧ c.Alamat ≠ "" ∧ c.Kota ≠ "" ∧
       c.SalesName ≠ "" ∧ c.Channel ≠ "" ∧ c.Avg2023 ≠ "" ∧ c.Avg2024 ≠ "" ∧
       c.Avg2025 ≠ "" ∧ c.Max ≠ "") ∧
    (∀ (row : List String) (c : ExlDataC), custRowDataC row = some c →
       c.Branch ≠ "" ∧ c.CustId ≠ "" ∧ c.CustName ≠ "" ∧ c.Alamat ≠ "" ∧ c.Kota ≠ "" ∧
       c.SalesName ≠ "" ∧ c.Channel ≠ "" ∧ c.Avg2023 ≠ "" ∧ c.Q4Avg2023 ≠ "") := by
  constructor
  · intro rows c hc
    rw [openLocalCustRows_eq] at hc
    obtain ⟨row, _, rfl⟩ := List.mem_map.mp hc
    exact ⟨getRowValue_ne_empty _ _, getRowValue_ne_empty _ _, getRowValue_ne_empty _ _,
      getRowValue_ne_empty _ _, getRowValue_ne_empty _ _, getRowValue_ne_empty _ _,
      getRowValue_ne_empty _ _, getRowValue_ne_empty _ _, getRowValue_ne_empty _ _,
      getRowValue_ne_empty _ _, getRowValue_ne_empty _ _⟩
  · intro row c h
    simp only [custRowDataC, bind, Option.bind_eq_some, pure, Option.some.injEq] at h
    obtain ⟨a, _, b, _, c2, _, d, _, e, _, f, _, g, _, h8, _, i, _, hrec⟩ := h
    subst hrec
    exact ⟨handleNullValue_ne_empty a, handleNullValue_ne_empty b, handleNullValue_ne_empty c2,
      handleNullValue_ne_empty d, handleNullValue_ne_empty e, handleNullValue_ne_empty f,
      handleNullValue_ne_empty g, handleNullValue_ne_empty h8, handleNullValue_ne_empty i⟩

/-- C7 witness: a concrete extracted record with an empty source cell has a
non-empty (sentinel) field, for both row builders. -/
theorem extracted_fields_nonempty_witness :
    (custRowData [""]).Branch ≠ "" ∧
    ({ Branch := "a", CustId := "b", CustName := "c", Alamat := "d", Kota := "e",
       SalesName := "f", Channel := "g", Avg2023 := "h", Q4Avg2023 := "i" } : ExlDataC).CustId ≠ "" := by
  have h1 := extracted_fields_nonempty.1 [["h"], [""]] (custRowData [""]) (by decide)
  have h2 := extracted_fields_nonempty.2 ["a", "b", "c", "d", "e", "f", "g", "h", "i"]
    { Branch := "a", CustId := "b", CustName := "c", Alamat := "d", Kota := "e",
      SalesName := "f", Channel := "g", Avg2023 := "h", Q4Avg2023 := "i" } (by decide)
  exact ⟨h1.1, h2.2.1⟩

/-- C5: in `openLocalProductFile` a row with no cell at the trailing PPN
column (length ≤ 3) yields the empty-string default, not the sentinel;
when the cell exists the ordinary sentinel rule applies (empty cell becomes
`" "`, non-empty passes through).  The controller's product row builder
(`openURLItem`) follows the sentinel rule whenever it produces a record. -/
theorem productRowData_ppn_default (row : List String) :
    (row.length ≤ 3 → (productRowData row).PPN = "") ∧
    (3 < row.length →
       ((row.getD 3 "" = "" → (productRowData row).PPN = " ") ∧
        (row.getD 3 "" ≠ "" → (productRowData row).PPN = row.getD 3 ""))) ∧
    (∀ p : ExlProduct, productRowDataC row = some p →
       ((row.getD 3 "" = "" → p.PPN = " ") ∧ (row.getD 3 "" ≠ "" → p.PPN = row.getD 3 ""))) := by
  refine ⟨?_, ?_, ?_⟩
  · intro h
    show (if 3 < row.length then getRowValue row 3 else "") = ""
    rw [if_neg (by omega)]
  · intro h3
    have hppn : (productRowData row).PPN = getRowValue row 3 := by
      show (if 3 < row.length then getRowValue row 3 else "") = _
      rw [if_pos h3]
    constructor
    · intro he
      rw [hppn, getRowValue_eq_getD, if_pos he]
    · intro he
      rw [hppn, getRowValue_eq_getD, if_neg he]
  · intro p hp
    simp only [productRowDataC, bind, Option.bind_eq_some, pure, Option.some.injEq] at hp
    obtain ⟨a, _, b, _, c, _, d, hd, hrec⟩ := hp
    have hget : row.getD 3 "" = d := by
      show (row.get? 3).getD "" = d
      rw [hd]
      rfl
    subst hrec
    constructor
    · intro he
      have hd0 : d = "" := (hget.symm.trans he)
      show handleNullValue d = " "
      rw [hd0]
      decide
    · intro he
      have hd0 : d ≠ "" := fun hh => he (hget.trans hh)
      show handleNullValue d = row.getD 3 ""
      rw [hget]
      unfold handleNullValue
      rw [if_neg hd0]

/-- C5 witness: the spec's scenario row with 3 columns yields `PPN = ""`;
with a present-but-empty fourth cell it yields the sentinel; the
controller's builder passes a non-empty fourth cell through. -/
theorem productRowData_ppn_default_witness :
    (productRowData ["APL001", "Paracetamol", "15000"]).PPN = "" ∧
    (productRowData ["APL001", "Paracetamol", "15000", ""]).PPN = " " ∧
    ({ Code := "APL001", NameProduct := "Paracetamol", HNA := "15000", PPN := "10%" } : ExlProduct).PPN = "10%" := by
  refine ⟨(productRowData_ppn_default ["APL001", "Paracetamol", "15000"]).1 (by decide),
    ((productRowData_ppn_default ["APL001", "Paracetamol", "15000", ""]).2.1 (by decide)).1 (by decide), ?_⟩
  have h := (productRowData_ppn_default ["APL001", "Paracetamol", "15000", "10%"]).2.2
    { Code := "APL001", NameProduct := "Paracetamol", HNA := "15000", PPN := "10%" } (by decide)
  exact h.2 (by decide)

/-- `GetRows` succeeds exactly on existing sheets (success direction). -/
theorem GetRows_ok_of_exists (doc : Workbook) (name : String)
    (h : sheetExists doc name = true) :
    ∃ rows, GetRows doc name = Except.ok rows := by
  unfold sheetExists at h
  unfold GetRows
  cases hf : doc.find? (fun s => s.1 = name) with
  | none => rw [hf] at h; simp at h
  | some s => exact ⟨s.2, rfl⟩

/-- `GetRows` fails exactly on missing sheets (failure direction). -/
theorem GetRows_error_of_not_exists (doc : Workbook) (name : String)
    (h : sheetExists doc name = false) :
    ∃ e, GetRows doc name = Except.error e := by
  unfold sheetExists at h
  unfold GetRows
  cases hf : doc.find? (fun s => s.1 = name) with
  | none => exact ⟨_, rfl⟩
  | some s => rw [hf] at h; simp at h

/-- Behaviour of the alternate-name fallback loop: it attempts the names in
order; if some alternate exists it stops at the first such name with its
rows, having attempted exactly the non-existing prefix plus that name; if
none exists it attempts every name and fails. -/
theorem tryAlternates_spec (doc : Workbook) (alts : List String) : ∀ lastErr : String,
    (∀ c, alts.find? (fun n => sheetExists doc n) = some c →
       (tryAlternates doc lastErr alts).1
           = alts.takeWhile (fun n => !sheetExists doc n) ++ [c] ∧
       ∃ rows, GetRows doc c = Except.ok rows ∧
         (tryAlternates doc lastErr alts).2 = Except.ok rows) ∧
    (alts.find? (fun n => sheetExists doc n) = none →
       (tryAlternates doc lastErr alts).1 = alts ∧
       ∃ e, (tryAlternates doc lastErr alts).2 = Except.error e) := by
  induction alts with
  | nil =>
    intro lastErr
    constructor
    · intro c hc
      simp [List.find?] at hc
    · intro _
      exact ⟨rfl, _, rfl⟩
  | cons name rest ih =>
    intro lastErr
    constructor
    · intro c hc
      by_cases hex : sheetExists doc name = true
      · have hcn : c = name := by
          rw [List.find?_cons_of_pos _ hex] at hc
          exact (Option.some.injEq _ _ ▸ hc.symm :)
        subst hcn
        obtain ⟨rows, hrows⟩ := GetRows_ok_of_exists doc c hex
        rw [tryAlternates, hrows]
        refine ⟨?_, rows, rfl, rfl⟩
        rw [List.takeWhile_cons_of_neg (by simp [hex])]
        rfl
      · have hex' : sheetExists doc name = false := by
          cases hsx : sheetExists doc name
          · rfl
          · exact absurd hsx hex
        obtain ⟨e, he⟩ := GetRows_error_of_not_exists doc name hex'
        rw [List.find?_cons_of_neg _ (by simp [hex'])] at hc
        obtain ⟨h1, rows, hrows, h2⟩ := (ih e).1 c hc
        rw [tryAlternates, he]
        refine ⟨?_, rows, hrows, h2⟩
        rw [List.takeWhile_cons_of_pos (by simp [hex'])]
        simpa using h1
    · intro hc
      have hex' : sheetExists doc name = false := by
        cases hsx : sheetExists doc name
        · rfl
        · rw [List.find?_cons_of_pos _ hsx] at hc; simp at hc
      obtain ⟨e, he⟩ := GetRows_error_of_not_exists doc name hex'
      rw [List.find?_cons_of_neg _ (by simp [hex'])] at hc
      obtain ⟨h1, e2, h2⟩ := (ih e).2 hc
      rw [tryAlternates, he]
      exact ⟨by simpa using h1, e2, h2⟩

/-- C3: the extraction attempts the candidate sheet names in order
(primary first, then the alternates), succeeds with the rows of the first
candidate that exists in the document having attempted no later candidate,
and fails only after attempting every candidate when none exists. -/
theorem openSheetWithFallback_first_match (doc : Workbook) (primary : String)
    (alternates : List String) :
    (∀ c, (primary :: alternates).find? (fun n => sheetExists doc n) = some c →
       (openSheetWithFallback doc primary alternates).1
           = (primary :: alternates).takeWhile (fun n => !sheetExists doc n) ++ [c] ∧
       ∃ rows, GetRows doc c = Except.ok rows ∧
         (openSheetWithFallback doc primary alternates).2 = Except.ok rows) ∧
    ((primary :: alternates).find? (fun n => sheetExists doc n) = none →
       (openSheetWithFallback doc primary alternates).1 = primary :: alternates ∧
       ∃ e, (openSheetWithFallback doc primary alternates).2 = Except.error e) := by
  constructor
  · intro c hc
    by_cases hex : sheetExists doc primary = true
    · have hcn : c = primary := by
        rw [List.find?_cons_of_pos _ hex] at hc
        exact (Option.some.injEq _ _ ▸ hc.symm :)
      subst hcn
      obtain ⟨rows, hrows⟩ := GetRows_ok_of_exists doc c hex
      rw [openSheetWithFallback, hrows]
      refine ⟨?_, rows, rfl, rfl⟩
      rw [List.takeWhile_cons_of_neg (by simp [hex])]
      rfl
    · have hex' : sheetExists doc primary = false := by
        cases hsx : sheetExists doc primary
        · rfl
        · exact absurd hsx hex
      obtain ⟨e, he⟩ := GetRows_error_of_not_exists doc primary hex'
      rw [List.find?_cons_of_neg _ (by simp [hex'])] at hc
      obtain ⟨h1, rows, hrows, h2⟩ := (tryAlternates_spec doc alternates e).1 c hc
      rw [openSheetWithFallback, he]
      refine ⟨?_, rows, hrows, h2⟩
      rw [List.takeWhile_cons_of_pos (by simp [hex'])]
      simpa using h1
  · intro hc
    have hex' : sheetExists doc primary = false := by
      cases hsx : sheetExists doc primary
      · rfl
      · rw [List.find?_cons_of_pos _ hsx] at hc; simp at hc
    obtain ⟨e, he⟩ := GetRows_error_of_not_exists doc primary hex'
    rw [List.find?_cons_of_neg _ (by simp [hex'])] at hc
    obtain ⟨h1, e2, h2⟩ := (tryAlternates_spec doc alternates e).2 hc
    rw [openSheetWithFallback, he]
    exact ⟨by simpa using h1, e2, h2⟩

/-- C3 witness: with candidates `["Data Base", "Database", "Sheet1", "Data"]`
and a document containing only `"Sheet1"`, the extraction succeeds on
`"Sheet1"` and never attempts `"Data"`; with a document containing none of
the candidates, all four are attempted and the call fails. -/
theorem openSheetWithFallback_first_match_witness :
    (openSheetWithFallback [("Sheet1", [["x"]])] "Data Base" ["Database", "Sheet1", "Data"]).1
        = ["Data Base", "Database", "Sheet1"] ∧
    (openSheetWithFallback [("Sheet1", [["x"]])] "Data Base" ["Database", "Sheet1", "Data"]).2
        = Except.ok [["x"]] ∧
    (openSheetWithFallback [("Other", [])] "Data Base" ["Database", "Sheet1", "Data"]).1
        = ["Data Base", "Database", "Sheet1", "Data"] ∧
    ∃ e, (openSheetWithFallback [("Other", [])] "Data Base" ["Database", "Sheet1", "Data"]).2
        = Except.error e := by
  have h1 := (openSheetWithFallback_first_match [("Sheet1", [["x"]])] "Data Base"
    ["Database", "Sheet1", "Data"]).1 "Sheet1" (by decide)
  have h2 := (openSheetWithFallback_first_match [("Other", [])] "Data Base"
    ["Database", "Sheet1", "Data"]).2 (by decide)
  obtain ⟨ha, rows, hrows, hres⟩ := h1
  have hgr : GetRows [("Sheet1", [["x"]])] "Sheet1" = Except.ok [["x"]] := rfl
  have hrx : rows = [["x"]] := by
    injection hrows.symm.trans hgr
  refine ⟨by rw [ha]; decide, by rw [hres, hrx], h2.1, h2.2⟩

/-- C2 (code bug): `openURLCust` indexes rows directly, so a data row with
a single cell makes the extraction panic with an index-out-of-range fault
instead of substituting the sentinel; the `getRowValue`-based extraction of
`main.go` on the same rows returns a record whose missing columns are the
single-space sentinel. -/
theorem openURLCust_short_row_panics :
    (openURLCustModel (Except.ok ())
        (fun _ => Except.ok [("Sheet1", [["h"], ["JOG"]])])).1
      = GoResult.panicked "runtime error: index out of range" ∧
    openLocalCustRows [["h"], ["JOG"]]
      = [{ Branch := "JOG", CustId := " ", CustName := " ", Alamat := " ", Kota := " ",
           SalesName := " ", Channel := " ", Avg2023 := " ", Avg2024 := " ",
           Avg2025 := " ", Max := " " }] := by
  constructor
  · rfl
  · decide

/-- C6 (code bug): on a successfully fetched document whose sheet list is
empty, `openURLCust` returns a nil record set together with a nil error
(`return nil, err` with `err` still `nil`), i.e. an empty record set that
the caller cannot distinguish from success; and on a fetch failure it
panics instead of returning an error value. -/
theorem openURLCust_failure_paths :
    (openURLCustModel (Except.ok ()) (fun _ => Except.ok ([] : Workbook))).1
      = GoResult.ok [] ∧
    (openURLCustModel (Except.error "connection refused")
        (fun _ : Unit => Except.ok ([] : Workbook))).1
      = GoResult.panicked "connection refused" ∧
    (openURLItemModel (Except.ok ()) (fun _ => Except.ok ([] : Workbook))).1
      = GoResult.ok [] := by
  exact ⟨rfl, rfl, rfl⟩

/-- C8 (code bug): `main.go`'s extraction registers the deferred close
immediately after a successful open, so the handle is released on every
path; but `openURLCust` registers its deferred close only after the
sheet-list check, so the early return on an empty sheet list leaves the
opened document handle unclosed. -/
theorem close_on_all_paths :
    (∀ (absRes : Except String String) (openFile : String → Except String Workbook),
       (openLocalCustFileModel absRes openFile).2 = true ∧
       (openLocalProductFileModel absRes openFile).2 = true) ∧
    (openURLCustModel (Except.ok ()) (fun _ => Except.ok ([] : Workbook))).2 = false := by
  constructor
  · intro absRes openFile
    constructor
    · cases absRes with
      | error e => rfl
      | ok path =>
        cases hof : openFile path with
        | error e => simp [openLocalCustFileModel, hof]
        | ok doc =>
          cases hs : (openSheetWithFallback doc "Data Base" ["Database", "Sheet1", "Data"]).2 with
          | error e => simp [openLocalCustFileModel, hof, hs]
          | ok rows => simp [openLocalCustFileModel, hof, hs]
    · cases absRes with
      | error e => rfl
      | ok path =>
        cases hof : openFile path with
        | error e => simp [openLocalProductFileModel, hof]
        | ok doc =>
          cases hs : (openSheetWithFallback doc "APL" ["DaftarHarga", "Product", "Products", "Sheet2"]).2 with
          | error e => simp [openLocalProductFileModel, hof, hs]
          | ok rows => simp [openLocalProductFileModel, hof, hs]
  · rfl
